import Mathlib

/-!
# Verification of `scripts/send_qr.py`

Shallow embedding of the `send_qr.py` script: a CLI program that takes an
owner email and a base64-encoded PNG payload (directly or via stdin with the
sentinel `-`), strips an optional `data:image/png;base64,` prefix, decodes
the payload with Python's `base64.b64decode` (lenient mode), writes the bytes
to `/tmp/whatsapp-qr.png`, and invokes `gmail.py` as a subprocess to email
the image, mapping failures to exit status 1.

Payload strings are modelled as `List Char`; decoded bytes as `List Nat`.
Real time (the `time.strftime` timestamps) is abstracted away by modelling
the printed lines as structured messages carrying exactly the data-dependent
parts (byte counts, addresses, subprocess stderr text).
-/

namespace send_qr

/-- Base64 alphabet value of a character, mirroring CPython's
`table_a2b_base64`: `A`-`Z` ↦ 0-25, `a`-`z` ↦ 26-51, `0`-`9` ↦ 52-61,
`+` ↦ 62, `/` ↦ 63; every other character is invalid (`none`). -/
def b64val (c : Char) : Option Nat :=
  let n := c.toNat
  if 65 ≤ n ∧ n ≤ 90 then some (n - 65)
  else if 97 ≤ n ∧ n ≤ 122 then some (n - 97 + 26)
  else if 48 ≤ n ∧ n ≤ 57 then some (n - 48 + 52)
  else if n = 43 then some 62
  else if n = 47 then some 63
  else none

/-- The run state of CPython's `binascii.a2b_base64` in non-strict mode
(`strict_mode=False`, which is what `base64.b64decode` uses by default):
characters outside the alphabet are silently skipped; `=` when the quad
position is at least 2 counts padding and, once the quad completes
(`quad_pos + pads ≥ 4`), decoding stops successfully, ignoring the rest;
`=` earlier in a quad is skipped; a valid character resets the padding
count and emits a byte at quad positions 1, 2, 3. If the input ends with a
partial quad (`quad_pos ≠ 0`) the decode fails. `acc` holds the output
bytes in reverse. -/
def a2b_base64 : List Char → Nat → Nat → Nat → List Nat → Option (List Nat)
  | [], qp, _, _, acc => if qp = 0 then some acc.reverse else none
  | c :: rest, qp, leftchar, pads, acc =>
    if c = '=' then
      if 2 ≤ qp then
        if 4 ≤ qp + (pads + 1) then some acc.reverse
        else a2b_base64 rest qp leftchar (pads + 1) acc
      else a2b_base64 rest qp leftchar pads acc
    else
      match b64val c with
      | none => a2b_base64 rest qp leftchar pads acc
      | some v =>
        match qp with
        | 0 => a2b_base64 rest 1 v 0 acc
        | 1 => a2b_base64 rest 2 (v % 16) 0 ((leftchar * 4 + v / 16) :: acc)
        | 2 => a2b_base64 rest 3 (v % 4) 0 ((leftchar * 16 + v / 4) :: acc)
        | _ => a2b_base64 rest 0 0 0 ((leftchar * 64 + v) :: acc)

/-- Python's `base64.b64decode` on a `str` argument: the string is first
encoded as ASCII (a character ≥ 128 raises, hence `none`), then decoded by
`binascii.a2b_base64` in non-strict mode. `none` models any raised
exception (caught by the script's `except` block). -/
def b64decode (s : List Char) : Option (List Nat) :=
  if s.all (fun c => c.toNat < 128) then a2b_base64 s 0 0 0 [] else none

/-- The data-URI header `data:image/png;base64,` that the script strips. -/
def dataUriPfx : List Char := "data:image/png;base64,".data

/-- Boolean list-prefix test (structural). -/
def isPfxOf : List Char → List Char → Bool
  | [], _ => true
  | _ :: _, [] => false
  | a :: as, b :: bs => a = b && isPfxOf as bs

/-- `re.sub(r'^data:image/png;base64,', '', b64_data)`: without
`re.MULTILINE` the anchor `^` matches only at position 0, so at most one
leading copy of the header is removed. -/
def stripDataUri (s : List Char) : List Char :=
  if isPfxOf dataUriPfx s then s.drop dataUriPfx.length else s

/-- Characters removed by Python's `str.strip()` with no argument: exactly
the code points for which `str.isspace()` holds. -/
def isPySpace (c : Char) : Bool :=
  let n := c.toNat
  (9 ≤ n && n ≤ 13) || (28 ≤ n && n ≤ 31) || n = 32 ||
  n = 133 || n = 160 || n = 5760 || (8192 ≤ n && n ≤ 8202) ||
  n = 8232 || n = 8233 || n = 8239 || n = 8287 || n = 12288

/-- Python's `str.strip()`: drop whitespace from both ends. -/
def pyStrip (s : List Char) : List Char :=
  ((s.dropWhile isPySpace).reverse.dropWhile isPySpace).reverse

/-- Outcome of the one `subprocess.run` call: return code and captured
output streams (`capture_output=True, text=True`). -/
structure SubprocResult where
  returncode : Int
  stdout : List Char
  stderr : List Char
deriving DecidableEq

/-- A subprocess invocation: the argument vector handed to
`subprocess.run` and the `timeout` keyword (seconds). -/
structure Cmd where
  args : List (List Char)
  timeout : Nat
deriving DecidableEq

/-- Lines the script writes to stdout, with the `time.strftime` timestamp
abstracted away; each constructor carries the data-dependent content. -/
inductive OutMsg where
  | saved (byteCount : Nat)
  | emailing (owner : List Char)
  | emailedOk
deriving DecidableEq

/-- Lines the script writes to stderr (`file=sys.stderr`). -/
inductive ErrMsg where
  | usageLine1
  | usageLine2
  | decodeError
  | emailError (text : List Char)
  | emailFailed
deriving DecidableEq

/-- Observable result of one run of the script: exit status, the two output
streams, the files written (path, bytes), and the subprocesses invoked. -/
structure RunResult where
  exitCode : Nat
  stdoutMsgs : List OutMsg
  stderrMsgs : List ErrMsg
  fileWrites : List (List Char × List Nat)
  subprocCalls : List Cmd
deriving DecidableEq

/-- `os.path.expanduser("~/.config/agents-plane/gmail.py")`, with the
user's home directory as a parameter. -/
def gmail_py (home : List Char) : List Char := home ++ "/.config/agents-plane/gmail.py".data

/-- The literal `"python3"` argv head. -/
def python3Arg : List Char := "python3".data

/-- The `gmail.py` send-mode keyword. -/
def sendHtmlMode : List Char := "send_html".data

/-- The fixed subject line. -/
def emailSubject : List Char := "⚡ Scan this QR NOW — 60 seconds!".data

/-- The fixed HTML body (Python concatenates the adjacent string literals). -/
def emailHtml : List Char :=
  ("<h2>⚡ Scan this QR code with WhatsApp NOW</h2>" ++
   "<p><b>Open WhatsApp → Settings → Linked Devices → Link a Device</b></p>" ++
   "<p><img src=\x27cid:qrcode\x27 width=\x27300\x27/></p>" ++
   "<p>⚠️ This code expires in about 60 seconds! Scan it immediately.</p>" ++
   "<p>If it expired, just reply <b>connect</b> again and I\x27ll send a fresh one.</p>").data

/-- What `email_qr(owner_email, qr_png_path)` does, given the environment's
response `result` to its single `subprocess.run` call: the command it
issues, the stderr lines it prints, and the boolean it returns. -/
structure EmailOutcome where
  cmd : Cmd
  errPrints : List ErrMsg
  ok : Bool
deriving DecidableEq

/-- `email_qr`: builds the `gmail.py send_html` command (owner address as
both sender and recipient, fixed subject and HTML body, attachment
specifier `qrcode:<path>`, 15-second timeout); on a non-zero return code
prints the subprocess's stderr to the error stream; returns
`returncode == 0`. -/
def email_qr (home owner_email qr_png_path : List Char) (result : SubprocResult) : EmailOutcome :=
  { cmd := { args := [python3Arg, gmail_py home, sendHtmlMode,
                      owner_email, owner_email, emailSubject, emailHtml,
                      "qrcode:".data ++ qr_png_path],
             timeout := 15 },
    errPrints := if result.returncode ≠ 0 then [ErrMsg.emailError result.stderr] else [],
    ok := result.returncode == 0 }

/-- The sentinel argument `-` selecting stdin input. -/
def stdinSentinel : List Char := "-".data

/-- The fixed temporary path `/tmp/whatsapp-qr.png`. -/
def qr_path : List Char := "/tmp/whatsapp-qr.png".data

/-- `sys.argv[2]` resolution: the sentinel `-` selects
`sys.stdin.read().strip()`, otherwise the argument itself is the payload. -/
def resolvePayload (argv : List (List Char)) (stdinData : List Char) : List Char :=
  if argv.getD 2 [] = stdinSentinel then pyStrip stdinData else argv.getD 2 []

/-- The tail of `main` after argument parsing: strip the data-URI header,
decode, write the file and report the byte count, then attempt delivery
and map its boolean to the exit status. -/
def mainBody (owner_email payload home : List Char) (sub : SubprocResult) : RunResult :=
  let b64_data := stripDataUri payload
  match b64decode b64_data with
  | none =>
    { exitCode := 1, stdoutMsgs := [], stderrMsgs := [ErrMsg.decodeError],
      fileWrites := [], subprocCalls := [] }
  | some png_bytes =>
    let e := email_qr home owner_email qr_path sub
    if e.ok then
      { exitCode := 0,
        stdoutMsgs := [OutMsg.saved png_bytes.length, OutMsg.emailing owner_email,
                       OutMsg.emailedOk],
        stderrMsgs := e.errPrints,
        fileWrites := [(qr_path, png_bytes)],
        subprocCalls := [e.cmd] }
    else
      { exitCode := 1,
        stdoutMsgs := [OutMsg.saved png_bytes.length, OutMsg.emailing owner_email],
        stderrMsgs := e.errPrints ++ [ErrMsg.emailFailed],
        fileWrites := [(qr_path, png_bytes)],
        subprocCalls := [e.cmd] }

/-- One run of the script: `argv` is `sys.argv` (element 0 the program
name), `stdinData` the text available on standard input, `home` the user's
home directory, and `sub` the environment's response to the (at most one)
subprocess invocation. -/
def main (argv : List (List Char)) (stdinData home : List Char) (sub : SubprocResult) : RunResult :=
  if argv.length < 3 then
    { exitCode := 1, stdoutMsgs := [], stderrMsgs := [ErrMsg.usageLine1, ErrMsg.usageLine2],
      fileWrites := [], subprocCalls := [] }
  else
    mainBody (argv.getD 1 []) (resolvePayload argv stdinData) home sub

/-- A successful subprocess outcome. -/
def subOK : SubprocResult := { returncode := 0, stdout := [], stderr := [] }

/-- A failing subprocess outcome with some stderr text. -/
def subFail : SubprocResult := { returncode := 1, stdout := [], stderr := "smtp boom".data }

/-- A valid base64 string: every character is in the base64 alphabet or the
padding character `=`, and the string decodes successfully. -/
def validB64 (s : List Char) : Bool :=
  s.all (fun c => (b64val c).isSome || c = '=') && (b64decode s).isSome

/-- Concrete program name for sample runs. -/
def prog0 : List Char := "send_qr.py".data

/-- Concrete owner address for sample runs. -/
def owner0 : List Char := "owner@example.com".data

/-- Concrete home directory for sample runs. -/
def home0 : List Char := "/home/user".data

/-! ## Helper lemmas -/

/-- A list is a prefix of itself followed by anything. -/
theorem isPfxOf_self_append (p s : List Char) : isPfxOf p (p ++ s) = true := by
  induction p with
  | nil => rfl
  | cons a as ih => simp [isPfxOf, ih]

/-- Every character of a prefix occurs in the longer list. -/
theorem mem_of_isPfxOf {p s : List Char} {c : Char} (h : isPfxOf p s = true)
    (hc : c ∈ p) : c ∈ s := by
  induction p generalizing s with
  | nil => simp at hc
  | cons a as ih =>
    cases s with
    | nil => simp [isPfxOf] at h
    | cons b bs =>
      simp only [isPfxOf, Bool.and_eq_true, decide_eq_true_eq] at h
      rcases List.mem_cons.mp hc with rfl | hc
      · exact h.1 ▸ List.mem_cons_self _ _
      · exact List.mem_cons_of_mem _ (ih h.2 hc)

/-- Stripping removes exactly one leading copy of the data-URI header. -/
theorem stripDataUri_append (s : List Char) :
    stripDataUri (dataUriPfx ++ s) = s := by
  simp only [stripDataUri, isPfxOf_self_append, if_pos]
  exact List.drop_left _ _

/-- When the header is not a prefix, stripping is the identity. -/
theorem stripDataUri_of_not_pfx {s : List Char} (h : isPfxOf dataUriPfx s = false) :
    stripDataUri s = s := by
  simp [stripDataUri, h]

/-- A valid base64 string never starts with the data-URI header, since the
header contains `:` which is outside the base64 alphabet. -/
theorem not_pfx_of_validB64 {s : List Char} (h : validB64 s = true) :
    isPfxOf dataUriPfx s = false := by
  by_contra hne
  have hp : isPfxOf dataUriPfx s = true := by
    cases hb : isPfxOf dataUriPfx s
    · exact absurd hb hne
    · rfl
  have hcolon : (':' : Char) ∈ s :=
    mem_of_isPfxOf hp (by decide : (':' : Char) ∈ dataUriPfx)
  have hall := (Bool.and_eq_true _ _ |>.mp h).1
  have := List.all_eq_true.mp hall ':' hcolon
  simp [b64val] at this

/-- Running the script past argument parsing, on a three-element argv. -/
theorem main_three (p o x d home : List Char) (sub : SubprocResult) :
    main [p, o, x] d home sub =
    mainBody o (if x = stdinSentinel then pyStrip d else x) home sub := rfl

/-! ## Claim theorems -/

/-- C1: with payload `"SGVsbG8="` as the second CLI argument, the run
writes exactly the five ASCII bytes of `"Hello"` to the fixed temporary
path, and the success message reports a byte count of 5. -/
theorem C1_hello_payload :
    (main [prog0, owner0, "SGVsbG8=".data] [] home0 subOK).fileWrites =
      [(qr_path, "Hello".data.map Char.toNat)] ∧
    OutMsg.saved 5 ∈ (main [prog0, owner0, "SGVsbG8=".data] [] home0 subOK).stdoutMsgs ∧
    ("Hello".data.map Char.toNat).length = 5 := by
  decide

/-- C2: for every valid base64 string `s`, stripping the data-URI header
and then decoding gives the same bytes on `"data:image/png;base64," ++ s`
as on `s` alone. -/
theorem C2_prefix_transparent (s : List Char) (h : validB64 s = true) :
    b64decode (stripDataUri (dataUriPfx ++ s)) = b64decode (stripDataUri s) := by
  rw [stripDataUri_append, stripDataUri_of_not_pfx (not_pfx_of_validB64 h)]

/-- C2 witness: the general theorem applied to the concrete valid base64
string `"SGVsbG8="`. -/
theorem C2_prefix_transparent_witness :
    validB64 "SGVsbG8=".data = true ∧
    b64decode (stripDataUri (dataUriPfx ++ "SGVsbG8=".data)) =
      b64decode (stripDataUri "SGVsbG8=".data) :=
  ⟨by decide, C2_prefix_transparent "SGVsbG8=".data (by decide)⟩

/-- C3: whenever the (normalized) payload fails to decode, the run exits
with status 1, reports the decode failure on stderr, prints nothing to
stdout (in particular no success message), writes no file, and invokes no
subprocess (delivery is never attempted). -/
theorem C3_decode_failure_aborts (argv : List (List Char)) (stdinData home : List Char)
    (sub : SubprocResult) (h3 : 3 ≤ argv.length)
    (hfail : b64decode (stripDataUri (resolvePayload argv stdinData)) = none) :
    main argv stdinData home sub =
      { exitCode := 1, stdoutMsgs := [], stderrMsgs := [ErrMsg.decodeError],
        fileWrites := [], subprocCalls := [] } := by
  unfold main
  rw [if_neg (Nat.not_lt.mpr h3)]
  simp [mainBody, hfail]

/-- C3 witness: the malformed payload `"not-base64!!"` triggers the
decode-failure exit. -/
theorem C3_decode_failure_aborts_witness :
    main [prog0, owner0, "not-base64!!".data] [] home0 subOK =
      { exitCode := 1, stdoutMsgs := [], stderrMsgs := [ErrMsg.decodeError],
        fileWrites := [], subprocCalls := [] } :=
  C3_decode_failure_aborts [prog0, owner0, "not-base64!!".data] [] home0 subOK
    (by decide) (by decide)

/-- C5: with fewer than two positional arguments (argv shorter than 3
entries including the program name), the run prints the two usage lines to
stderr and exits with status 1, decoding nothing, writing nothing and
invoking no subprocess. -/
theorem C5_usage_error (argv : List (List Char)) (stdinData home : List Char)
    (sub : SubprocResult) (h : argv.length < 3) :
    main argv stdinData home sub =
      { exitCode := 1, stdoutMsgs := [],
        stderrMsgs := [ErrMsg.usageLine1, ErrMsg.usageLine2],
        fileWrites := [], subprocCalls := [] } := by
  simp [main, h]

/-- C5 witness: a run with only the owner argument. -/
theorem C5_usage_error_witness :
    main [prog0, owner0] [] home0 subOK =
      { exitCode := 1, stdoutMsgs := [],
        stderrMsgs := [ErrMsg.usageLine1, ErrMsg.usageLine2],
        fileWrites := [], subprocCalls := [] } :=
  C5_usage_error [prog0, owner0] [] home0 subOK (by decide)

/-- C4: on any run that reaches delivery (argv long enough, payload
decodes), a non-zero helper return code makes `email_qr` report the
helper's stderr text, print it to the program's error stream and return
`false`, and the run exits with status 1; a zero return code makes
`email_qr` return `true` and the run exits with status 0. -/
theorem C4_delivery_status (argv : List (List Char)) (stdinData home : List Char)
    (sub : SubprocResult) (bytes : List Nat) (h3 : 3 ≤ argv.length)
    (hdec : b64decode (stripDataUri (resolvePayload argv stdinData)) = some bytes) :
    (sub.returncode ≠ 0 →
      (email_qr home (argv.getD 1 []) qr_path sub).ok = false ∧
      (email_qr home (argv.getD 1 []) qr_path sub).errPrints = [ErrMsg.emailError sub.stderr] ∧
      ErrMsg.emailError sub.stderr ∈ (main argv stdinData home sub).stderrMsgs ∧
      (main argv stdinData home sub).exitCode = 1) ∧
    (sub.returncode = 0 →
      (email_qr home (argv.getD 1 []) qr_path sub).ok = true ∧
      (main argv stdinData home sub).exitCode = 0) := by
  have hm : main argv stdinData home sub =
      mainBody (argv.getD 1 []) (resolvePayload argv stdinData) home sub := by
    unfold main
    rw [if_neg (Nat.not_lt.mpr h3)]
  constructor
  · intro hne
    rw [hm]
    simp [mainBody, hdec, email_qr, hne]
  · intro hz
    rw [hm]
    simp [mainBody, hdec, email_qr, hz]

/-- C4 witness: the theorem applied to a run with a decodable payload and
the failing subprocess outcome `subFail`. -/
theorem C4_delivery_status_witness :
    (subFail.returncode ≠ 0 →
      (email_qr home0 ([prog0, owner0, "SGVsbG8=".data].getD 1 []) qr_path subFail).ok = false ∧
      (email_qr home0 ([prog0, owner0, "SGVsbG8=".data].getD 1 []) qr_path subFail).errPrints =
        [ErrMsg.emailError subFail.stderr] ∧
      ErrMsg.emailError subFail.stderr ∈
        (main [prog0, owner0, "SGVsbG8=".data] [] home0 subFail).stderrMsgs ∧
      (main [prog0, owner0, "SGVsbG8=".data] [] home0 subFail).exitCode = 1) ∧
    (subFail.returncode = 0 →
      (email_qr home0 ([prog0, owner0, "SGVsbG8=".data].getD 1 []) qr_path subFail).ok = true ∧
      (main [prog0, owner0, "SGVsbG8=".data] [] home0 subFail).exitCode = 0) :=
  C4_delivery_status [prog0, owner0, "SGVsbG8=".data] [] home0 subFail
    [72, 101, 108, 108, 111] (by decide) (by decide)

/-- C6 counterexample: for the payload `" data:image/png;base64,AAAA"`,
supplying it on stdin with the sentinel `-` succeeds (stdin is trimmed, so
the header is stripped and `"AAAA"` decodes), while supplying the same
string as the second CLI argument fails to decode (the leading space blocks
the anchored header pattern and the residual data-character count is not a
multiple of 4), so the two behaviors differ. -/
theorem C6_stdin_counterexample :
    (main [prog0, owner0, stdinSentinel] " data:image/png;base64,AAAA".data home0 subOK).exitCode
      = 0 ∧
    (main [prog0, owner0, " data:image/png;base64,AAAA".data]
        " data:image/png;base64,AAAA".data home0 subOK).exitCode = 1 := by
  decide

/-- C6 (amended): supplying a payload on stdin with the sentinel `-`
behaves identically to supplying the whitespace-trimmed payload
(`str.strip()` applied) as the second CLI argument. -/
theorem C6_stdin_equiv_trimmed (prog owner stdinData home : List Char) (sub : SubprocResult) :
    main [prog, owner, stdinSentinel] stdinData home sub =
    main [prog, owner, pyStrip stdinData] stdinData home sub := by
  rw [main_three, main_three]
  by_cases h : pyStrip stdinData = stdinSentinel
  · simp [h]
  · simp [h]

/-- C7: every run that reaches delivery invokes exactly one subprocess:
`python3 <home>/.config/agents-plane/gmail.py send_html` with the owner
address as both sender and recipient, the fixed subject, the fixed HTML
body (whose inline image references the content-id `qrcode`), the
attachment specifier `qrcode:/tmp/whatsapp-qr.png`, and a 15-second
timeout. -/
theorem C7_delivery_command (argv : List (List Char)) (stdinData home : List Char)
    (sub : SubprocResult) (bytes : List Nat) (h3 : 3 ≤ argv.length)
    (hdec : b64decode (stripDataUri (resolvePayload argv stdinData)) = some bytes) :
    (main argv stdinData home sub).subprocCalls =
      [{ args := [python3Arg, gmail_py home, sendHtmlMode,
                  argv.getD 1 [], argv.getD 1 [], emailSubject, emailHtml,
                  "qrcode:".data ++ qr_path],
         timeout := 15 }] := by
  unfold main
  rw [if_neg (Nat.not_lt.mpr h3)]
  simp only [mainBody, hdec]
  split <;> rfl

/-- C7 witness: the delivery command of a concrete successful run. -/
theorem C7_delivery_command_witness :
    (main [prog0, owner0, "SGVsbG8=".data] [] home0 subOK).subprocCalls =
      [{ args := [python3Arg, gmail_py home0, sendHtmlMode,
                  [prog0, owner0, "SGVsbG8=".data].getD 1 [],
                  [prog0, owner0, "SGVsbG8=".data].getD 1 [],
                  emailSubject, emailHtml, "qrcode:".data ++ qr_path],
         timeout := 15 }] :=
  C7_delivery_command [prog0, owner0, "SGVsbG8=".data] [] home0 subOK
    [72, 101, 108, 108, 111] (by decide) (by decide)

/-- C8: the payload `"SGVs-bG8="` contains `-`, which is outside the
base64 alphabet and is not padding, yet the decode step succeeds — the
invalid character is silently discarded and the remaining characters
decode to `"Hello"` — so the run writes the file and exits 0 rather than
failing on this malformed payload. -/
theorem C8_lenient_decode :
    (∃ c ∈ ("SGVs-bG8=".data : List Char), b64val c = none ∧ c ≠ '=') ∧
    b64decode (stripDataUri "SGVs-bG8=".data) = some ("Hello".data.map Char.toNat) ∧
    (main [prog0, owner0, "SGVs-bG8=".data] [] home0 subOK).fileWrites =
      [(qr_path, "Hello".data.map Char.toNat)] ∧
    (main [prog0, owner0, "SGVs-bG8=".data] [] home0 subOK).exitCode = 0 := by
  decide

/-- C9: the data-URI header is stripped only when it stands at position 0
(a payload of which it is not a prefix is passed to the decoder
unchanged), and only one leading copy is removed (a payload starting with
two copies of the header keeps one copy). -/
theorem C9_anchored_single_strip (s t : List Char) :
    (isPfxOf dataUriPfx s = false → stripDataUri s = s) ∧
    stripDataUri (dataUriPfx ++ (dataUriPfx ++ t)) = dataUriPfx ++ t :=
  ⟨fun h => stripDataUri_of_not_pfx h, stripDataUri_append (dataUriPfx ++ t)⟩

/-- C9 witness: the payload `"xdata:image/png;base64,AAAA"` (header at
position 1) is left unchanged, and a doubled header keeps one copy. -/
theorem C9_anchored_single_strip_witness :
    stripDataUri "xdata:image/png;base64,AAAA".data = "xdata:image/png;base64,AAAA".data ∧
    stripDataUri (dataUriPfx ++ (dataUriPfx ++ "AAAA".data)) = dataUriPfx ++ "AAAA".data :=
  ⟨(C9_anchored_single_strip "xdata:image/png;base64,AAAA".data "AAAA".data).1 (by decide),
   (C9_anchored_single_strip "xdata:image/png;base64,AAAA".data "AAAA".data).2⟩

/-- C10: the empty payload decodes to zero bytes: the run writes an empty
file at the fixed path (truncating it), reports a saved byte count of 0,
still attempts delivery (exactly one subprocess call), and exits 0 when
the helper succeeds. -/
theorem C10_empty_payload :
    b64decode (stripDataUri []) = some [] ∧
    (main [prog0, owner0, []] [] home0 subOK).fileWrites = [(qr_path, [])] ∧
    OutMsg.saved 0 ∈ (main [prog0, owner0, []] [] home0 subOK).stdoutMsgs ∧
    (main [prog0, owner0, []] [] home0 subOK).subprocCalls.length = 1 ∧
    (main [prog0, owner0, []] [] home0 subOK).exitCode = 0 := by
  decide

end send_qr
